import Mathlib

/-!
Shallow embedding of the multi-agent contract-analysis pipeline.

Source layout:
- `src/agents/contract_agent.py`, `legal_agent.py`, `negotiation_agent.py`:
  three phase-1 workers, each building one prompt from the document text and
  wrapping a single call to an external text-generation service.
- `src/agents/manager_agent.py`: the phase-2 consolidation worker.
- `src/telegram_bot.py` (`run_agents`) and `src/app.py`
  (`run_parallel_analysis` / `run_manager_analysis`): the orchestrators.
- `src/utils/document_processor.py`: text extraction routing.

The external text-generation call (`self.agent.arun(prompt)`) is modelled as a
function from the prompt to `Except String GenResponse`: `.ok` is a normal
response, `.error e` is a raised exception whose message is `e`.  Python dicts
returned by the workers are modelled by the `AnalysisResult` structure; the
untyped dicts the manager accepts are modelled by `AgentResults` whose entries
may be absent or lack a `content` key.
-/

/-- Python `needle in hay` on strings (substring containment), at the level of
character lists so the usual list lemmas apply. -/
def listIn (needle : List Char) : List Char → Bool
  | [] => needle.isEmpty
  | c :: cs => needle.isPrefixOf (c :: cs) || listIn needle cs

/-- Python `needle in hay` for strings. -/
def strIn (needle hay : String) : Bool :=
  listIn needle.data hay.data

/-- Python slicing `s[:n]`: the first `n` characters of `s` (all of `s` when it
is shorter). -/
def pySlice (s : String) (n : Nat) : String :=
  String.mk (s.data.take n)

/-- Response object of the external generation service: `response.content` and
`response.run_id` as used by the workers. -/
structure GenResponse where
  content : String
  run_id : Option String
deriving DecidableEq

/-- The external generation call of one agent: prompt to normal response or
raised exception message. -/
abbrev Gen := String → Except String GenResponse

/-- Python `str(response.run_id) if response.run_id else None`: `None` and the
empty string are falsy and give `None`; otherwise the string itself. -/
def pyRunId : Option String → Option String
  | none => none
  | some s => if s = "" then none else some s

/-- The uniform result dict every worker returns.  The success path has no
`error` key (here `error = none`) and the failure path has no `run_id` key
(here `run_id = none`). -/
structure AnalysisResult where
  agent : String
  analysis_type : String
  content : String
  run_id : Option String
  error : Option String
deriving DecidableEq

namespace ContractStructureAgent

/-- Prompt built by `ContractStructureAgent.analyze` (f-string at
`contract_agent.py:55-59`), with the document text sliced to 8000 chars. -/
def promptOf (contract_text : String) : String :=
  "Analyze this contract's structure briefly:\n\n" ++ pySlice contract_text 8000 ++
    "\n\nProvide a short, readable summary of the document structure."

/-- `ContractStructureAgent.analyze` (`contract_agent.py:45-75`): one external
call; success returns the generated content, any exception is converted to a
failure dict. -/
def analyze (gen : Gen) (contract_text : String) : AnalysisResult :=
  match gen (promptOf contract_text) with
  | .ok response =>
      { agent := "Contract Structure Agent", analysis_type := "structural",
        content := response.content, run_id := pyRunId response.run_id, error := none }
  | .error e =>
      { agent := "Contract Structure Agent", analysis_type := "structural",
        content := "⚠️ Analysis failed: " ++ e, run_id := none, error := some e }

end ContractStructureAgent

namespace LegalFrameworkAgent

/-- Prompt built by `LegalFrameworkAgent.analyze` (`legal_agent.py:56-60`). -/
def promptOf (contract_text : String) : String :=
  "Analyze this contract for legal risks briefly:\n\n" ++ pySlice contract_text 8000 ++
    "\n\nProvide a short, readable summary of legal concerns."

/-- `LegalFrameworkAgent.analyze` (`legal_agent.py:46-76`). -/
def analyze (gen : Gen) (contract_text : String) : AnalysisResult :=
  match gen (promptOf contract_text) with
  | .ok response =>
      { agent := "Legal Framework Agent", analysis_type := "legal",
        content := response.content, run_id := pyRunId response.run_id, error := none }
  | .error e =>
      { agent := "Legal Framework Agent", analysis_type := "legal",
        content := "⚠️ Analysis failed: " ++ e, run_id := none, error := some e }

end LegalFrameworkAgent

namespace NegotiationAgent

/-- Prompt built by `NegotiationAgent.analyze` (`negotiation_agent.py:55-59`). -/
def promptOf (contract_text : String) : String :=
  "Analyze this contract for negotiation opportunities briefly:\n\n" ++
    pySlice contract_text 8000 ++
    "\n\nProvide a short, readable summary of negotiation points."

/-- `NegotiationAgent.analyze` (`negotiation_agent.py:45-75`). -/
def analyze (gen : Gen) (contract_text : String) : AnalysisResult :=
  match gen (promptOf contract_text) with
  | .ok response =>
      { agent := "Negotiation Agent", analysis_type := "negotiation",
        content := response.content, run_id := pyRunId response.run_id, error := none }
  | .error e =>
      { agent := "Negotiation Agent", analysis_type := "negotiation",
        content := "⚠️ Analysis failed: " ++ e, run_id := none, error := some e }

end NegotiationAgent

/-- A Python value stored under a worker-result dict's `content` key: either
`None` or a string. -/
inductive ContentVal where
  | vNone : ContentVal
  | vStr : String → ContentVal
deriving DecidableEq

/-- How an f-string renders the value (`str()`): `None` prints as "None". -/
def ContentVal.render : ContentVal → String
  | .vNone => "None"
  | .vStr s => s

/-- A worker-result dict as the manager sees it: the `content` key may be
absent (`none`) or hold a value. -/
structure ResultDict where
  content : Option ContentVal
deriving DecidableEq

/-- The `agent_results` dict passed to `ManagerAgent.analyze`: each of the
three keys may be absent entirely. -/
structure AgentResults where
  structure' : Option ResultDict
  legal : Option ResultDict
  negotiation : Option ResultDict
deriving DecidableEq

/-- Python `agent_results.get(key, {}).get("content", dflt)`: the default is
substituted when the outer key is absent or the inner `content` key is absent;
a present value (even `None` or `""`) is returned as-is. -/
def pyGetContent (entry : Option ResultDict) (dflt : String) : ContentVal :=
  match entry with
  | none => .vStr dflt
  | some d =>
    match d.content with
    | none => .vStr dflt
    | some v => v

namespace ManagerAgent

/-- Leading segment of the manager prompt template (`manager_agent.py:67-78`). -/
def promptPre : String :=
  "Consolidate these agent findings into a brief executive summary:\n\n**Structure Analysis:**\n"

/-- Segment between the structure and legal blocks. -/
def promptMid1 : String := "\n\n**Legal Analysis:**\n"

/-- Segment between the legal and negotiation blocks. -/
def promptMid2 : String := "\n\n**Negotiation Analysis:**\n"

/-- Trailing segment of the manager prompt template. -/
def promptSuf : String :=
  "\n\nProvide a short, actionable summary with your recommendation."

/-- The manager's f-string prompt over the three rendered content blocks. -/
def promptTemplate (s l n : String) : String :=
  promptPre ++ s ++ promptMid1 ++ l ++ promptMid2 ++ n ++ promptSuf

/-- Effective structure-section input (`manager_agent.py:63`). -/
def structureInput (agent_results : AgentResults) : ContentVal :=
  pyGetContent agent_results.structure' "No structural analysis available"

/-- Effective legal-section input (`manager_agent.py:64`). -/
def legalInput (agent_results : AgentResults) : ContentVal :=
  pyGetContent agent_results.legal "No legal analysis available"

/-- Effective negotiation-section input (`manager_agent.py:65`). -/
def negotiationInput (agent_results : AgentResults) : ContentVal :=
  pyGetContent agent_results.negotiation "No negotiation analysis available"

/-- The outbound prompt `ManagerAgent.analyze` builds from its input dict. -/
def promptOf (agent_results : AgentResults) : String :=
  promptTemplate (structureInput agent_results).render (legalInput agent_results).render
    (negotiationInput agent_results).render

/-- `ManagerAgent.analyze` (`manager_agent.py:49-94`). -/
def analyze (gen : Gen) (agent_results : AgentResults) : AnalysisResult :=
  match gen (promptOf agent_results) with
  | .ok response =>
      { agent := "Manager Agent", analysis_type := "consolidated",
        content := response.content, run_id := pyRunId response.run_id, error := none }
  | .error e =>
      { agent := "Manager Agent", analysis_type := "consolidated",
        content := "⚠️ Consolidation failed: " ++ e, run_id := none, error := some e }

end ManagerAgent

/-- `AggregatedResults`: the dict `{"structure": ..., "legal": ..., "negotiation": ...}`
assembled by the orchestrator (`telegram_bot.py:79-83`, `app.py:99-103`). -/
structure AggregatedResults where
  structure' : AnalysisResult
  legal : AnalysisResult
  negotiation : AnalysisResult
deriving DecidableEq

/-- View of a worker result as the untyped dict the manager reads: its
`content` key is present and holds the result's content string. -/
def AnalysisResult.toDict (r : AnalysisResult) : ResultDict :=
  { content := some (.vStr r.content) }

/-- The aggregated dict as `ManagerAgent.analyze` receives it: all three keys
present. -/
def AggregatedResults.toManagerInput (a : AggregatedResults) : AgentResults :=
  { structure' := some a.structure'.toDict, legal := some a.legal.toDict,
    negotiation := some a.negotiation.toDict }

/-- Return value of `run_agents` (`telegram_bot.py:88-91`): the per-agent
results plus the consolidated report. -/
structure RunResult where
  agents : AggregatedResults
  consolidated : AnalysisResult
deriving DecidableEq

/-- `run_parallel_analysis` (`app.py:77-103`): the three phase-1 workers on the
same document text, results keyed by analysis kind. -/
def run_parallel_analysis (genS genL genN : Gen) (contract_text : String) :
    AggregatedResults :=
  { structure' := ContractStructureAgent.analyze genS contract_text,
    legal := LegalFrameworkAgent.analyze genL contract_text,
    negotiation := NegotiationAgent.analyze genN contract_text }

/-- `run_manager_analysis` (`app.py:106-117`). -/
def run_manager_analysis (genM : Gen) (agent_results : AggregatedResults) :
    AnalysisResult :=
  ManagerAgent.analyze genM agent_results.toManagerInput

/-- `run_agents` (`telegram_bot.py:56-91`): phase 1 fan-out over the three
workers, assembly of the keyed dict, then the manager pass over it. -/
def run_agents (genS genL genN genM : Gen) (contract_text : String) : RunResult :=
  let structure_result := ContractStructureAgent.analyze genS contract_text
  let legal_result := LegalFrameworkAgent.analyze genL contract_text
  let negotiation_result := NegotiationAgent.analyze genN contract_text
  let agent_results : AggregatedResults :=
    { structure' := structure_result, legal := legal_result,
      negotiation := negotiation_result }
  let manager_result := ManagerAgent.analyze genM agent_results.toManagerInput
  { agents := agent_results, consolidated := manager_result }

/-- The three phase-1 workers launched by the orchestrator. -/
inductive P1Worker where
  | wStructure : P1Worker
  | wLegal : P1Worker
  | wNegotiation : P1Worker
deriving DecidableEq

/-- The prompt a given phase-1 worker sends for a document text. -/
def P1Worker.promptOf : P1Worker → String → String
  | .wStructure, t => ContractStructureAgent.promptOf t
  | .wLegal, t => LegalFrameworkAgent.promptOf t
  | .wNegotiation, t => NegotiationAgent.promptOf t

/-- The generation service a given phase-1 worker uses. -/
def P1Worker.genOf : P1Worker → Gen → Gen → Gen → Gen
  | .wStructure, gS, _, _ => gS
  | .wLegal, _, gL, _ => gL
  | .wNegotiation, _, _, gN => gN

/-- The aggregated entry belonging to a given phase-1 worker. -/
def P1Worker.resultOf : P1Worker → AggregatedResults → AnalysisResult
  | .wStructure, a => a.structure'
  | .wLegal, a => a.legal
  | .wNegotiation, a => a.negotiation

/-- Replace one phase-1 worker's generation service, leaving the others. -/
def replaceGen : P1Worker → Gen → Gen → Gen → Gen → Gen × Gen × Gen
  | .wStructure, g, _, gL, gN => (g, gL, gN)
  | .wLegal, g, gS, _, gN => (gS, g, gN)
  | .wNegotiation, g, gS, gL, _ => (gS, gL, g)

/-- Deterministic stub service that always answers "stub-ok". -/
def stubOk : Gen := fun _ => .ok { content := "stub-ok", run_id := none }

/-- Stub service that always raises a `TimeoutError`. -/
def stubTimeout : Gen := fun _ => .error "TimeoutError"

/-- Deterministic stub service for the manager pass. -/
def stubFinal : Gen := fun _ => .ok { content := "final-report", run_id := none }

/-- State of the phase-1 fan-out: each of the three concurrently launched
tasks either still runs (`none`) or has reached its terminal converted result
(`some`). -/
structure GatherState where
  sres : Option AnalysisResult
  lres : Option AnalysisResult
  nres : Option AnalysisResult
deriving DecidableEq

/-- One scheduler step: the named task reaches its terminal state (success or
converted failure — `analyze` is total, so termination is unconditional). -/
def gatherStep (gS gL gN : Gen) (t : String) (st : GatherState) : P1Worker → GatherState
  | .wStructure => { st with sres := some (ContractStructureAgent.analyze gS t) }
  | .wLegal => { st with lres := some (LegalFrameworkAgent.analyze gL t) }
  | .wNegotiation => { st with nres := some (NegotiationAgent.analyze gN t) }

/-- Run the fan-out under an arbitrary completion order of the three tasks. -/
def gatherExec (order : List P1Worker) (gS gL gN : Gen) (t : String) : GatherState :=
  order.foldl (gatherStep gS gL gN t) { sres := none, lres := none, nres := none }

/-- `run_agents` under an explicit completion order: `asyncio.gather` resolves
(and the dict assembly plus the Manager stage run) only once every task has a
terminal result; otherwise the pipeline is still waiting (`none`). -/
def run_agents_sched (order : List P1Worker) (gS gL gN gM : Gen) (t : String) :
    Option RunResult :=
  match gatherExec order gS gL gN t with
  | { sres := some structure_result, lres := some legal_result,
      nres := some negotiation_result } =>
    let agent_results : AggregatedResults :=
      { structure' := structure_result, legal := legal_result,
        negotiation := negotiation_result }
    some { agents := agent_results,
           consolidated := ManagerAgent.analyze gM agent_results.toManagerInput }
  | _ => none

/-- A possibly stateful external generation service: each call consumes and
returns service state of type `σ` (connection pools, counters, ...), the only
channel through which one pipeline run could influence the next. -/
abbrev GenSt (σ : Type) := σ → String → Except String GenResponse × σ

/-- `ContractStructureAgent.analyze` against the stateful service: one call,
state threaded through. -/
def ContractStructureAgent.analyzeSt {σ : Type} (gen : GenSt σ) (s : σ) (t : String) :
    AnalysisResult × σ :=
  (ContractStructureAgent.analyze (fun _ => (gen s (ContractStructureAgent.promptOf t)).1) t,
    (gen s (ContractStructureAgent.promptOf t)).2)

/-- `LegalFrameworkAgent.analyze` against the stateful service. -/
def LegalFrameworkAgent.analyzeSt {σ : Type} (gen : GenSt σ) (s : σ) (t : String) :
    AnalysisResult × σ :=
  (LegalFrameworkAgent.analyze (fun _ => (gen s (LegalFrameworkAgent.promptOf t)).1) t,
    (gen s (LegalFrameworkAgent.promptOf t)).2)

/-- `NegotiationAgent.analyze` against the stateful service. -/
def NegotiationAgent.analyzeSt {σ : Type} (gen : GenSt σ) (s : σ) (t : String) :
    AnalysisResult × σ :=
  (NegotiationAgent.analyze (fun _ => (gen s (NegotiationAgent.promptOf t)).1) t,
    (gen s (NegotiationAgent.promptOf t)).2)

/-- `ManagerAgent.analyze` against the stateful service. -/
def ManagerAgent.analyzeSt {σ : Type} (gen : GenSt σ) (s : σ) (agent_results : AgentResults) :
    AnalysisResult × σ :=
  (ManagerAgent.analyze (fun _ => (gen s (ManagerAgent.promptOf agent_results)).1) agent_results,
    (gen s (ManagerAgent.promptOf agent_results)).2)

/-- `run_agents` with the external-service state made explicit: all four
workers are constructed fresh inside the call (as in the source), so the
returned service state is the only thing a run carries over to the next. -/
def run_agents_st {σ : Type} (gen : GenSt σ) (s0 : σ) (t : String) : RunResult × σ :=
  let p1 := ContractStructureAgent.analyzeSt gen s0 t
  let p2 := LegalFrameworkAgent.analyzeSt gen p1.2 t
  let p3 := NegotiationAgent.analyzeSt gen p2.2 t
  let agent_results : AggregatedResults :=
    { structure' := p1.1, legal := p2.1, negotiation := p3.1 }
  let p4 := ManagerAgent.analyzeSt gen p3.2 agent_results.toManagerInput
  ({ agents := agent_results, consolidated := p4.1 }, p4.2)

/-- The aggregated entry a phase-1 worker owns, in the manager's input dict. -/
def P1Worker.entryOf : P1Worker → AgentResults → Option ResultDict
  | .wStructure, a => a.structure'
  | .wLegal, a => a.legal
  | .wNegotiation, a => a.negotiation

/-- The fixed placeholder string for a section (`manager_agent.py:63-65`). -/
def P1Worker.placeholderOf : P1Worker → String
  | .wStructure => "No structural analysis available"
  | .wLegal => "No legal analysis available"
  | .wNegotiation => "No negotiation analysis available"

/-- The manager's effective input for a section. -/
def P1Worker.managerInputOf : P1Worker → AgentResults → ContentVal
  | .wStructure, a => ManagerAgent.structureInput a
  | .wLegal, a => ManagerAgent.legalInput a
  | .wNegotiation, a => ManagerAgent.negotiationInput a

/-- Python `s.endswith(suffix)`: suffix match on the character sequence. -/
def strEndsWith (s suffixStr : String) : Bool :=
  suffixStr.data.isSuffixOf s.data

/-- Python `s.lower()` (character-wise lowercasing). -/
def strToLower (s : String) : String :=
  String.mk (s.data.map Char.toLower)

/-- A Streamlit `UploadedFile` as `extract_text_from_file` reads it: the file
name, the declared MIME type, and the bytes `uploaded_file.read()` yields
(kept abstract over `β`). -/
structure UploadedFile (β : Type) where
  name : String
  type : String
  file_bytes : β

/-- Which branch of `extract_text_from_file` the declared type selects
(`document_processor.py:82-91`): PDF first, then DOCX, else unsupported. -/
inductive ExtractRoute where
  | pdf : ExtractRoute
  | docx : ExtractRoute
  | unsupported : ExtractRoute
deriving DecidableEq

/-- The if/elif/else chain of `extract_text_from_file` on the lowercased file
name and the (unlowered) MIME type. -/
def extract_route {β : Type} (uploaded_file : UploadedFile β) : ExtractRoute :=
  let file_name := strToLower uploaded_file.name
  let file_type := uploaded_file.type
  if strEndsWith file_name ".pdf" || strIn "pdf" file_type then .pdf
  else if strEndsWith file_name ".docx" || strIn "wordprocessingml" file_type then .docx
  else .unsupported

/-- `extract_text_from_file` (`document_processor.py:65-91`).  The two
extractors `extract_text_from_pdf` / `extract_text_from_docx` are thin
wrappers over external parsing libraries and are passed as parameters; the
`ValueError` of the unsupported branch is the `.error` case. -/
def extract_text_from_file {β : Type} (extract_pdf extract_docx : β → String)
    (uploaded_file : UploadedFile β) : Except String String :=
  let file_bytes := uploaded_file.file_bytes
  let file_name := strToLower uploaded_file.name
  let file_type := uploaded_file.type
  if strEndsWith file_name ".pdf" || strIn "pdf" file_type then
    .ok (extract_pdf file_bytes)
  else if strEndsWith file_name ".docx" || strIn "wordprocessingml" file_type then
    .ok (extract_docx file_bytes)
  else
    .error ("Unsupported file type: " ++ file_type ++ ". Please upload a PDF or DOCX file.")

/-- C4: for any document text longer than 8000 characters, each phase-1
worker's outbound prompt embeds exactly the first 8000 characters of the text
(the slice has length 8000, slicing happens before embedding, so the prompt is
unchanged if the text is pre-truncated), and the prompt differs from the one
that would embed the full text. -/
theorem phase1_prompt_truncation (t : String) (h : 8000 < t.length) :
    (ContractStructureAgent.promptOf t =
        "Analyze this contract's structure briefly:\n\n" ++ pySlice t 8000 ++
          "\n\nProvide a short, readable summary of the document structure." ∧
      (pySlice t 8000).length = 8000 ∧
      ContractStructureAgent.promptOf t = ContractStructureAgent.promptOf (pySlice t 8000) ∧
      ContractStructureAgent.promptOf t ≠
        "Analyze this contract's structure briefly:\n\n" ++ t ++
          "\n\nProvide a short, readable summary of the document structure.") ∧
    (LegalFrameworkAgent.promptOf t =
        "Analyze this contract for legal risks briefly:\n\n" ++ pySlice t 8000 ++
          "\n\nProvide a short, readable summary of legal concerns." ∧
      LegalFrameworkAgent.promptOf t = LegalFrameworkAgent.promptOf (pySlice t 8000) ∧
      LegalFrameworkAgent.promptOf t ≠
        "Analyze this contract for legal risks briefly:\n\n" ++ t ++
          "\n\nProvide a short, readable summary of legal concerns.") ∧
    (NegotiationAgent.promptOf t =
        "Analyze this contract for negotiation opportunities briefly:\n\n" ++ pySlice t 8000 ++
          "\n\nProvide a short, readable summary of negotiation points." ∧
      NegotiationAgent.promptOf t = NegotiationAgent.promptOf (pySlice t 8000) ∧
      NegotiationAgent.promptOf t ≠
        "Analyze this contract for negotiation opportunities briefly:\n\n" ++ t ++
          "\n\nProvide a short, readable summary of negotiation points.") := by
  have hd : 8000 < t.data.length := h
  have hlen : (pySlice t 8000).length = 8000 := by
    simp [pySlice, String.length_mk, List.length_take]
    omega
  have hidem : pySlice (pySlice t 8000) 8000 = pySlice t 8000 := by
    simp [pySlice, List.take_take]
  have hne : ∀ pre suf : String,
      pre ++ pySlice t 8000 ++ suf ≠ pre ++ t ++ suf := by
    intro pre suf heq
    have hl := congrArg String.length heq
    simp [String.length_append, hlen] at hl
    omega
  refine ⟨⟨rfl, hlen, ?_, ?_⟩, ⟨rfl, ?_, ?_⟩, ⟨rfl, ?_, ?_⟩⟩
  · simp [ContractStructureAgent.promptOf, hidem]
  · exact hne _ _
  · simp [LegalFrameworkAgent.promptOf, hidem]
  · exact hne _ _
  · simp [NegotiationAgent.promptOf, hidem]
  · exact hne _ _

/-- Witness for `phase1_prompt_truncation` at a concrete 8001-character text. -/
theorem phase1_prompt_truncation_witness :
    8000 < (String.mk (List.replicate 8001 'a')).length ∧
      (pySlice (String.mk (List.replicate 8001 'a')) 8000).length = 8000 := by
  have h : 8000 < (String.mk (List.replicate 8001 'a')).length := by
    rw [String.length_mk, List.length_replicate]
    omega
  exact ⟨h, ((phase1_prompt_truncation _ h).1.2).1⟩

/-- C6: for every aggregated-results mapping, the manager's single outbound
prompt is the template segments with the three rendered content blocks embedded
verbatim, and its length is the sum of the three block lengths plus a fixed
template overhead — no 8000-character (or other) cap is applied, so the prompt
grows without bound in the block lengths. -/
theorem manager_prompt_verbatim_unbounded (agent_results : AgentResults) :
    ManagerAgent.promptOf agent_results =
      ManagerAgent.promptPre ++ (ManagerAgent.structureInput agent_results).render ++
        ManagerAgent.promptMid1 ++ (ManagerAgent.legalInput agent_results).render ++
        ManagerAgent.promptMid2 ++ (ManagerAgent.negotiationInput agent_results).render ++
        ManagerAgent.promptSuf ∧
    (ManagerAgent.promptOf agent_results).length =
      (ManagerAgent.structureInput agent_results).render.length +
        (ManagerAgent.legalInput agent_results).render.length +
        (ManagerAgent.negotiationInput agent_results).render.length +
        (ManagerAgent.promptPre.length + ManagerAgent.promptMid1.length +
          ManagerAgent.promptMid2.length + ManagerAgent.promptSuf.length) := by
  refine ⟨rfl, ?_⟩
  simp [ManagerAgent.promptOf, ManagerAgent.promptTemplate, String.length_append]
  omega

/-- C9: on both the success and the failure path, every worker's result carries
the fixed `agent` and `analysis_type` values of its variant ("structural",
"legal", "negotiation", "consolidated"), independent of the input and of
whether the external call succeeded. -/
theorem analyze_identity_fields (gen : Gen) (t : String) (agent_results : AgentResults) :
    ((ContractStructureAgent.analyze gen t).agent = "Contract Structure Agent" ∧
      (ContractStructureAgent.analyze gen t).analysis_type = "structural") ∧
    ((LegalFrameworkAgent.analyze gen t).agent = "Legal Framework Agent" ∧
      (LegalFrameworkAgent.analyze gen t).analysis_type = "legal") ∧
    ((NegotiationAgent.analyze gen t).agent = "Negotiation Agent" ∧
      (NegotiationAgent.analyze gen t).analysis_type = "negotiation") ∧
    ((ManagerAgent.analyze gen agent_results).agent = "Manager Agent" ∧
      (ManagerAgent.analyze gen agent_results).analysis_type = "consolidated") := by
  refine ⟨?_, ?_, ?_, ?_⟩
  · cases hx : gen (ContractStructureAgent.promptOf t) <;>
      simp [ContractStructureAgent.analyze, hx]
  · cases hx : gen (LegalFrameworkAgent.promptOf t) <;>
      simp [LegalFrameworkAgent.analyze, hx]
  · cases hx : gen (NegotiationAgent.promptOf t) <;>
      simp [NegotiationAgent.analyze, hx]
  · cases hx : gen (ManagerAgent.promptOf agent_results) <;>
      simp [ManagerAgent.analyze, hx]

/-- C2: each worker's `analyze` is a total function into `AnalysisResult` — a
raised exception of the external call (the `.error` case) never propagates but
is converted: the result's content is the fixed failure notice with the
exception message appended and its `error` field equals that message, while on
success the content is the raw generated text and `error` is unset. -/
theorem analyze_failSoft_conversion (gen : Gen) (t : String) (agent_results : AgentResults) :
    (match gen (ContractStructureAgent.promptOf t) with
      | .ok response =>
          (ContractStructureAgent.analyze gen t).content = response.content ∧
            (ContractStructureAgent.analyze gen t).error = none
      | .error e =>
          (ContractStructureAgent.analyze gen t).content = "⚠️ Analysis failed: " ++ e ∧
            (ContractStructureAgent.analyze gen t).error = some e) ∧
    (match gen (LegalFrameworkAgent.promptOf t) with
      | .ok response =>
          (LegalFrameworkAgent.analyze gen t).content = response.content ∧
            (LegalFrameworkAgent.analyze gen t).error = none
      | .error e =>
          (LegalFrameworkAgent.analyze gen t).content = "⚠️ Analysis failed: " ++ e ∧
            (LegalFrameworkAgent.analyze gen t).error = some e) ∧
    (match gen (NegotiationAgent.promptOf t) with
      | .ok response =>
          (NegotiationAgent.analyze gen t).content = response.content ∧
            (NegotiationAgent.analyze gen t).error = none
      | .error e =>
          (NegotiationAgent.analyze gen t).content = "⚠️ Analysis failed: " ++ e ∧
            (NegotiationAgent.analyze gen t).error = some e) ∧
    (match gen (ManagerAgent.promptOf agent_results) with
      | .ok response =>
          (ManagerAgent.analyze gen agent_results).content = response.content ∧
            (ManagerAgent.analyze gen agent_results).error = none
      | .error e =>
          (ManagerAgent.analyze gen agent_results).content = "⚠️ Consolidation failed: " ++ e ∧
            (ManagerAgent.analyze gen agent_results).error = some e) := by
  refine ⟨?_, ?_, ?_, ?_⟩
  · cases hx : gen (ContractStructureAgent.promptOf t) <;>
      simp [ContractStructureAgent.analyze, hx]
  · cases hx : gen (LegalFrameworkAgent.promptOf t) <;>
      simp [LegalFrameworkAgent.analyze, hx]
  · cases hx : gen (NegotiationAgent.promptOf t) <;>
      simp [NegotiationAgent.analyze, hx]
  · cases hx : gen (ManagerAgent.promptOf agent_results) <;>
      simp [ManagerAgent.analyze, hx]

/-- C1: if exactly one phase-1 worker's external call raises (message `e`)
while the other two succeed, `run_agents` still returns a full result whose
consolidated report comes from the Manager pass, the failing worker's
aggregated entry has `error = some e`, and the other two entries are exactly
what they would be under any replacement of the failing worker's service — in
particular under one that does not fail. -/
theorem run_agents_failSoft_isolation (w : P1Worker) (gS gL gN gM : Gen)
    (t e : String)
    (hfail : w.genOf gS gL gN (w.promptOf t) = .error e)
    (hok : ∀ w' : P1Worker, w' ≠ w →
      ∃ resp, w'.genOf gS gL gN (w'.promptOf t) = .ok resp) :
    (w.resultOf (run_agents gS gL gN gM t).agents).error = some e ∧
    (run_agents gS gL gN gM t).consolidated =
      ManagerAgent.analyze gM (run_agents gS gL gN gM t).agents.toManagerInput ∧
    (run_agents gS gL gN gM t).consolidated.agent = "Manager Agent" ∧
    (run_agents gS gL gN gM t).consolidated.analysis_type = "consolidated" ∧
    ∀ (g' : Gen) (w' : P1Worker), w' ≠ w →
      w'.resultOf
          (run_agents (replaceGen w g' gS gL gN).1 (replaceGen w g' gS gL gN).2.1
            (replaceGen w g' gS gL gN).2.2 gM t).agents =
        w'.resultOf (run_agents gS gL gN gM t).agents := by
  refine ⟨?_, ?_, ?_, ?_, ?_⟩
  · cases w with
    | wStructure =>
        simp only [P1Worker.genOf, P1Worker.promptOf] at hfail
        simp [run_agents, P1Worker.resultOf, ContractStructureAgent.analyze, hfail]
    | wLegal =>
        simp only [P1Worker.genOf, P1Worker.promptOf] at hfail
        simp [run_agents, P1Worker.resultOf, LegalFrameworkAgent.analyze, hfail]
    | wNegotiation =>
        simp only [P1Worker.genOf, P1Worker.promptOf] at hfail
        simp [run_agents, P1Worker.resultOf, NegotiationAgent.analyze, hfail]
  · rfl
  · cases hx : gM (ManagerAgent.promptOf (run_agents gS gL gN gM t).agents.toManagerInput) <;>
      simp [run_agents, ManagerAgent.analyze, hx] <;>
      simp [run_agents] at hx <;> simp [hx]
  · cases hx : gM (ManagerAgent.promptOf (run_agents gS gL gN gM t).agents.toManagerInput) <;>
      simp [run_agents, ManagerAgent.analyze, hx] <;>
      simp [run_agents] at hx <;> simp [hx]
  · intro g' w' hne
    cases w <;> cases w' <;> simp at hne <;>
      simp [run_agents, replaceGen, P1Worker.resultOf]

/-- Witness for `run_agents_failSoft_isolation`: the legal worker's call raises
`TimeoutError`, the pipeline still produces a Manager-pass report and records
the error in the legal entry. -/
theorem run_agents_failSoft_isolation_witness :
    P1Worker.wLegal.genOf stubOk stubTimeout stubOk (P1Worker.wLegal.promptOf "doc") =
      Except.error "TimeoutError" ∧
    (P1Worker.wLegal.resultOf (run_agents stubOk stubTimeout stubOk stubFinal "doc").agents).error =
      some "TimeoutError" ∧
    (run_agents stubOk stubTimeout stubOk stubFinal "doc").consolidated.agent = "Manager Agent" ∧
    (run_agents stubOk stubTimeout stubOk stubFinal "doc").consolidated.analysis_type =
      "consolidated" := by
  have hok : ∀ w' : P1Worker, w' ≠ .wLegal →
      ∃ resp, w'.genOf stubOk stubTimeout stubOk (w'.promptOf "doc") = .ok resp := by
    intro w' hne
    cases w' with
    | wStructure => exact ⟨_, rfl⟩
    | wLegal => exact absurd rfl hne
    | wNegotiation => exact ⟨_, rfl⟩
  have h := run_agents_failSoft_isolation .wLegal stubOk stubTimeout stubOk stubFinal
    "doc" "TimeoutError" rfl hok
  exact ⟨rfl, h.1, h.2.2.1, h.2.2.2.1⟩

/-- The fan-out state after any schedule: each slot is filled iff its task
appears in the schedule, and then with that worker's `analyze` result. -/
theorem gatherExec_eq (gS gL gN : Gen) (t : String) (order : List P1Worker)
    (st : GatherState) :
    order.foldl (gatherStep gS gL gN t) st =
      { sres := if P1Worker.wStructure ∈ order
          then some (ContractStructureAgent.analyze gS t) else st.sres,
        lres := if P1Worker.wLegal ∈ order
          then some (LegalFrameworkAgent.analyze gL t) else st.lres,
        nres := if P1Worker.wNegotiation ∈ order
          then some (NegotiationAgent.analyze gN t) else st.nres } := by
  induction order generalizing st with
  | nil => simp
  | cons w ws ih =>
    rw [List.foldl_cons, ih]
    cases w <;> simp [gatherStep, List.mem_cons]

/-- C3: for every completion order of the three phase-1 tasks, the pipeline
reaches the Manager stage only when all three tasks have reached a terminal
state (the schedule contains all of them); at that point the aggregated
mapping holds exactly the keys structure, legal and negotiation with the
corresponding workers' results, the Manager pass runs on that mapping, and the
outcome is the same as `run_agents` for every order. -/
theorem run_agents_sched_fanIn (order : List P1Worker) (gS gL gN gM : Gen) (t : String) :
    (∀ r, run_agents_sched order gS gL gN gM t = some r →
      (P1Worker.wStructure ∈ order ∧ P1Worker.wLegal ∈ order ∧
        P1Worker.wNegotiation ∈ order) ∧
      r.agents = { structure' := ContractStructureAgent.analyze gS t,
                   legal := LegalFrameworkAgent.analyze gL t,
                   negotiation := NegotiationAgent.analyze gN t } ∧
      r.consolidated = ManagerAgent.analyze gM r.agents.toManagerInput ∧
      r = run_agents gS gL gN gM t) ∧
    ((P1Worker.wStructure ∈ order ∧ P1Worker.wLegal ∈ order ∧
        P1Worker.wNegotiation ∈ order) →
      run_agents_sched order gS gL gN gM t = some (run_agents gS gL gN gM t)) := by
  have hg := gatherExec_eq gS gL gN t order
    { sres := none, lres := none, nres := none }
  constructor
  · intro r hr
    by_cases h1 : P1Worker.wStructure ∈ order <;>
      by_cases h2 : P1Worker.wLegal ∈ order <;>
      by_cases h3 : P1Worker.wNegotiation ∈ order <;>
      simp [run_agents_sched, gatherExec, hg, h1, h2, h3] at hr
    refine ⟨⟨h1, h2, h3⟩, ?_, ?_, ?_⟩ <;> simp [← hr, run_agents]
  · rintro ⟨h1, h2, h3⟩
    simp [run_agents_sched, gatherExec, hg, h1, h2, h3, run_agents]

/-- Witness for `run_agents_sched_fanIn`: a concrete completion order in which
the legal task finishes first still assembles the full mapping and yields the
`run_agents` outcome. -/
theorem run_agents_sched_fanIn_witness :
    (P1Worker.wStructure ∈ [P1Worker.wLegal, P1Worker.wNegotiation, P1Worker.wStructure] ∧
      P1Worker.wLegal ∈ [P1Worker.wLegal, P1Worker.wNegotiation, P1Worker.wStructure] ∧
      P1Worker.wNegotiation ∈ [P1Worker.wLegal, P1Worker.wNegotiation, P1Worker.wStructure]) ∧
    run_agents_sched [P1Worker.wLegal, P1Worker.wNegotiation, P1Worker.wStructure]
        stubOk stubTimeout stubOk stubFinal "doc" =
      some (run_agents stubOk stubTimeout stubOk stubFinal "doc") := by
  have hmem : P1Worker.wStructure ∈ [P1Worker.wLegal, P1Worker.wNegotiation, P1Worker.wStructure] ∧
      P1Worker.wLegal ∈ [P1Worker.wLegal, P1Worker.wNegotiation, P1Worker.wStructure] ∧
      P1Worker.wNegotiation ∈ [P1Worker.wLegal, P1Worker.wNegotiation, P1Worker.wStructure] := by
    refine ⟨?_, ?_, ?_⟩ <;> decide
  exact ⟨hmem, (run_agents_sched_fanIn _ stubOk stubTimeout stubOk stubFinal "doc").2 hmem⟩

/-- C8: against a deterministic stub service (responses depend only on the
prompt, whatever the state does), running the full pipeline twice in
sequence — the second run starting from the service state the first run left
behind — produces identical reports, equal to the stateless `run_agents`
outcome; in particular the two consolidated contents coincide. -/
theorem run_agents_idempotent_rerun {σ : Type} (gen : GenSt σ) (genF : Gen)
    (s0 : σ) (t : String) (hdet : ∀ s p, (gen s p).1 = genF p) :
    (run_agents_st gen s0 t).1 = (run_agents_st gen (run_agents_st gen s0 t).2 t).1 ∧
    (run_agents_st gen s0 t).1 = run_agents genF genF genF genF t ∧
    (run_agents_st gen s0 t).1.consolidated.content =
      (run_agents_st gen (run_agents_st gen s0 t).2 t).1.consolidated.content := by
  have key : ∀ s : σ, (run_agents_st gen s t).1 = run_agents genF genF genF genF t := by
    intro s
    simp [run_agents_st, ContractStructureAgent.analyzeSt, LegalFrameworkAgent.analyzeSt,
      NegotiationAgent.analyzeSt, ManagerAgent.analyzeSt, hdet, run_agents]
    exact ⟨⟨rfl, rfl, rfl⟩, rfl⟩
  exact ⟨(key s0).trans (key _).symm, key s0, by rw [key s0, key _]⟩

/-- Witness for `run_agents_idempotent_rerun`: a call-counting service whose
responses are the deterministic stub gives the same report on both runs. -/
theorem run_agents_idempotent_rerun_witness :
    ((fun (s : Nat) (p : String) => (stubOk p, s + 1)) 0 "x").1 = stubOk "x" ∧
    (run_agents_st (fun (s : Nat) (p : String) => (stubOk p, s + 1)) 0 "doc").1 =
      (run_agents_st (fun (s : Nat) (p : String) => (stubOk p, s + 1))
        (run_agents_st (fun (s : Nat) (p : String) => (stubOk p, s + 1)) 0 "doc").2 "doc").1 ∧
    (run_agents_st (fun (s : Nat) (p : String) => (stubOk p, s + 1)) 0 "doc").1 =
      run_agents stubOk stubOk stubOk stubOk "doc" := by
  have h := run_agents_idempotent_rerun (fun (s : Nat) (p : String) => (stubOk p, s + 1))
    stubOk 0 "doc" (fun _ _ => rfl)
  exact ⟨rfl, h.1, h.2.1⟩

/-- C5 counterexample: an aggregated mapping whose structure entry is present
but has empty content.  `dict.get("content", default)` substitutes the default
only when the key is absent, so the effective input is the empty string — not
the placeholder — and that empty string is what the prompt construction
embeds. -/
theorem manager_placeholder_counterexample :
    ManagerAgent.structureInput
        { structure' := some { content := some (.vStr "") }, legal := none,
          negotiation := none } = .vStr "" ∧
    ManagerAgent.structureInput
        { structure' := some { content := some (.vStr "") }, legal := none,
          negotiation := none } ≠ .vStr "No structural analysis available" ∧
    ManagerAgent.promptOf
        { structure' := some { content := some (.vStr "") }, legal := none,
          negotiation := none } =
      ManagerAgent.promptTemplate "" "No legal analysis available"
        "No negotiation analysis available" := by
  refine ⟨rfl, ?_, rfl⟩
  decide

/-- C5 amended: the placeholder is the manager's effective input exactly in
the cases Python's `dict.get` defaults — the entry is absent or its `content`
key is absent; a `content` key that is present is passed through as-is (so an
empty or `None` value does reach the prompt construction, rendered by the
f-string).  The prompt is then built from the three effective inputs. -/
theorem manager_placeholder_on_missing (w : P1Worker) (agent_results : AgentResults)
    (h : w.entryOf agent_results = none ∨
      ∃ d, w.entryOf agent_results = some d ∧ d.content = none) :
    w.managerInputOf agent_results = .vStr w.placeholderOf ∧
    (∀ d v, w.entryOf agent_results = some d → d.content = some v →
      w.managerInputOf agent_results = v) ∧
    ManagerAgent.promptOf agent_results =
      ManagerAgent.promptTemplate (ManagerAgent.structureInput agent_results).render
        (ManagerAgent.legalInput agent_results).render
        (ManagerAgent.negotiationInput agent_results).render := by
  refine ⟨?_, ?_, rfl⟩
  · cases w with
    | wStructure =>
      rcases h with h | ⟨d, hd, hc⟩
      · simp only [P1Worker.entryOf] at h
        simp [P1Worker.managerInputOf, P1Worker.placeholderOf,
          ManagerAgent.structureInput, pyGetContent, h]
      · simp only [P1Worker.entryOf] at hd
        simp [P1Worker.managerInputOf, P1Worker.placeholderOf,
          ManagerAgent.structureInput, pyGetContent, hd, hc]
    | wLegal =>
      rcases h with h | ⟨d, hd, hc⟩
      · simp only [P1Worker.entryOf] at h
        simp [P1Worker.managerInputOf, P1Worker.placeholderOf,
          ManagerAgent.legalInput, pyGetContent, h]
      · simp only [P1Worker.entryOf] at hd
        simp [P1Worker.managerInputOf, P1Worker.placeholderOf,
          ManagerAgent.legalInput, pyGetContent, hd, hc]
    | wNegotiation =>
      rcases h with h | ⟨d, hd, hc⟩
      · simp only [P1Worker.entryOf] at h
        simp [P1Worker.managerInputOf, P1Worker.placeholderOf,
          ManagerAgent.negotiationInput, pyGetContent, h]
      · simp only [P1Worker.entryOf] at hd
        simp [P1Worker.managerInputOf, P1Worker.placeholderOf,
          ManagerAgent.negotiationInput, pyGetContent, hd, hc]
  · intro d v hd hv
    cases w with
    | wStructure =>
      simp only [P1Worker.entryOf] at hd
      simp [P1Worker.managerInputOf, ManagerAgent.structureInput, pyGetContent, hd, hv]
    | wLegal =>
      simp only [P1Worker.entryOf] at hd
      simp [P1Worker.managerInputOf, ManagerAgent.legalInput, pyGetContent, hd, hv]
    | wNegotiation =>
      simp only [P1Worker.entryOf] at hd
      simp [P1Worker.managerInputOf, ManagerAgent.negotiationInput, pyGetContent, hd, hv]

/-- Witness for `manager_placeholder_on_missing`: a mapping missing its legal
entry entirely gets the legal placeholder. -/
theorem manager_placeholder_on_missing_witness :
    (P1Worker.wLegal.entryOf
        { structure' := some { content := some (.vStr "ok") }, legal := none,
          negotiation := some { content := some (.vStr "ok") } } = none ∨
      ∃ d, P1Worker.wLegal.entryOf
          { structure' := some { content := some (.vStr "ok") }, legal := none,
            negotiation := some { content := some (.vStr "ok") } } = some d ∧
        d.content = none) ∧
    P1Worker.wLegal.managerInputOf
        { structure' := some { content := some (.vStr "ok") }, legal := none,
          negotiation := some { content := some (.vStr "ok") } } =
      .vStr "No legal analysis available" := by
  have h : P1Worker.wLegal.entryOf
      { structure' := some { content := some (.vStr "ok") }, legal := none,
        negotiation := some { content := some (.vStr "ok") } } = none := rfl
  exact ⟨Or.inl h,
    (manager_placeholder_on_missing .wLegal
      { structure' := some { content := some (.vStr "ok") }, legal := none,
        negotiation := some { content := some (.vStr "ok") } } (Or.inl h)).1⟩

/-- C7 counterexample: a file named `.docx` whose MIME type contains "pdf" is
DOCX-typed in the claim's sense yet is routed to the PDF extractor, so "for a
DOCX-typed input it returns the DOCX extraction" fails as stated. -/
theorem extract_docx_typed_counterexample :
    (strEndsWith (strToLower "contract.docx") ".docx" = true) ∧
    extract_text_from_file (fun (_ : Unit) => "pdf-text") (fun _ => "docx-text")
        { name := "contract.docx", type := "application/pdf", file_bytes := () } =
      .ok "pdf-text" ∧
    extract_text_from_file (fun (_ : Unit) => "pdf-text") (fun _ => "docx-text")
        { name := "contract.docx", type := "application/pdf", file_bytes := () } ≠
      .ok "docx-text" := by
  exact ⟨rfl, rfl, fun h => absurd (Except.ok.inj h) (by decide)⟩

/-- C7 amended: extraction fails with the unsupported-format `ValueError`
exactly when the lowercased name ends in neither ".pdf" nor ".docx" and the
MIME type contains neither "pdf" nor "wordprocessingml"; a PDF-typed input
gets the PDF extraction; a DOCX-typed input that is not PDF-typed gets the
DOCX extraction; and in the unsupported case the error is raised without
consulting either extractor (the outcome is independent of them). -/
theorem extract_text_from_file_spec {β : Type} (extract_pdf extract_docx : β → String)
    (f : UploadedFile β) :
    ((∃ msg, extract_text_from_file extract_pdf extract_docx f = .error msg) ↔
      (strEndsWith (strToLower f.name) ".pdf" = false ∧ strIn "pdf" f.type = false ∧
        strEndsWith (strToLower f.name) ".docx" = false ∧
        strIn "wordprocessingml" f.type = false)) ∧
    ((strEndsWith (strToLower f.name) ".pdf" || strIn "pdf" f.type) = true →
      extract_text_from_file extract_pdf extract_docx f = .ok (extract_pdf f.file_bytes)) ∧
    ((strEndsWith (strToLower f.name) ".pdf" || strIn "pdf" f.type) = false →
      (strEndsWith (strToLower f.name) ".docx" || strIn "wordprocessingml" f.type) = true →
      extract_text_from_file extract_pdf extract_docx f = .ok (extract_docx f.file_bytes)) ∧
    ((strEndsWith (strToLower f.name) ".pdf" || strIn "pdf" f.type) = false →
      (strEndsWith (strToLower f.name) ".docx" || strIn "wordprocessingml" f.type) = false →
      extract_text_from_file extract_pdf extract_docx f =
        .error ("Unsupported file type: " ++ f.type ++ ". Please upload a PDF or DOCX file.") ∧
      ∀ (pdf2 docx2 : β → String),
        extract_text_from_file pdf2 docx2 f =
          extract_text_from_file extract_pdf extract_docx f) := by
  cases hp : (strEndsWith (strToLower f.name) ".pdf" || strIn "pdf" f.type) with
  | false =>
    have hp' := Bool.or_eq_false_iff.mp hp
    cases hd : (strEndsWith (strToLower f.name) ".docx" || strIn "wordprocessingml" f.type) with
    | false =>
      have hd' := Bool.or_eq_false_iff.mp hd
      refine ⟨?_, ?_, ?_, ?_⟩
      · constructor
        · intro _; exact ⟨hp'.1, hp'.2, hd'.1, hd'.2⟩
        · intro _
          exact ⟨"Unsupported file type: " ++ f.type ++ ". Please upload a PDF or DOCX file.",
            by simp [extract_text_from_file, hp, hd]⟩
      · intro htrue; simp [hp] at htrue
      · intro _ htrue; simp [hd] at htrue
      · intro _ _
        exact ⟨by simp [extract_text_from_file, hp, hd],
          fun p2 d2 => by simp [extract_text_from_file, hp, hd]⟩
    | true =>
      refine ⟨?_, ?_, ?_, ?_⟩
      · constructor
        · rintro ⟨msg, hmsg⟩; simp [extract_text_from_file, hp, hd] at hmsg
        · rintro ⟨-, -, h3, h4⟩; rw [h3, h4] at hd; simp at hd
      · intro htrue; simp [hp] at htrue
      · intro _ _; simp [extract_text_from_file, hp, hd]
      · intro _ hfalse; simp [hd] at hfalse
  | true =>
    refine ⟨?_, ?_, ?_, ?_⟩
    · constructor
      · rintro ⟨msg, hmsg⟩; simp [extract_text_from_file, hp] at hmsg
      · rintro ⟨h1, h2, -, -⟩; rw [h1, h2] at hp; simp at hp
    · intro _; simp [extract_text_from_file, hp]
    · intro hfalse; simp [hp] at hfalse
    · intro hfalse; simp [hp] at hfalse

/-- Witness for `extract_text_from_file_spec`: a plain PDF upload routes to
the PDF extraction. -/
theorem extract_text_from_file_spec_witness :
    ((strEndsWith (strToLower "a.pdf") ".pdf" || strIn "pdf" "application/pdf") = true) ∧
    extract_text_from_file (fun (_ : Unit) => "pdf-text") (fun _ => "docx-text")
        { name := "a.pdf", type := "application/pdf", file_bytes := () } = .ok "pdf-text" := by
  have h := (extract_text_from_file_spec (fun (_ : Unit) => "pdf-text") (fun _ => "docx-text")
      { name := "a.pdf", type := "application/pdf", file_bytes := () }).2.1 rfl
  exact ⟨rfl, h⟩

/-- C10: the routing of `extract_text_from_file` follows the if/elif chain
with the PDF check first — a PDF condition routes to the PDF extractor even
when the DOCX condition also holds, and the DOCX branch is reached only when
the PDF condition is false. -/
theorem extract_pdf_precedence {β : Type} (extract_pdf extract_docx : β → String)
    (f : UploadedFile β) :
    extract_text_from_file extract_pdf extract_docx f =
      (match extract_route f with
        | .pdf => .ok (extract_pdf f.file_bytes)
        | .docx => .ok (extract_docx f.file_bytes)
        | .unsupported =>
            .error ("Unsupported file type: " ++ f.type ++
              ". Please upload a PDF or DOCX file.")) ∧
    ((strEndsWith (strToLower f.name) ".pdf" || strIn "pdf" f.type) = true →
      extract_route f = .pdf ∧
      extract_text_from_file extract_pdf extract_docx f = .ok (extract_pdf f.file_bytes)) ∧
    (extract_route f = .docx →
      (strEndsWith (strToLower f.name) ".pdf" || strIn "pdf" f.type) = false ∧
      (strEndsWith (strToLower f.name) ".docx" || strIn "wordprocessingml" f.type) = true) := by
  cases hp : (strEndsWith (strToLower f.name) ".pdf" || strIn "pdf" f.type) <;>
    cases hd : (strEndsWith (strToLower f.name) ".docx" || strIn "wordprocessingml" f.type) <;>
    simp [extract_text_from_file, extract_route, hp, hd]

/-- Witness for `extract_pdf_precedence`: a file that satisfies both the PDF
and the DOCX condition is routed to the PDF extractor. -/
theorem extract_pdf_precedence_witness :
    ((strEndsWith (strToLower "report.docx") ".pdf" || strIn "pdf" "application/pdf") = true) ∧
    ((strEndsWith (strToLower "report.docx") ".docx" ||
        strIn "wordprocessingml" "application/pdf") = true) ∧
    extract_route { name := "report.docx", type := "application/pdf", file_bytes := () } =
      ExtractRoute.pdf ∧
    extract_text_from_file (fun (_ : Unit) => "pdf-text") (fun _ => "docx-text")
        { name := "report.docx", type := "application/pdf", file_bytes := () } =
      .ok "pdf-text" := by
  have h := (extract_pdf_precedence (fun (_ : Unit) => "pdf-text") (fun _ => "docx-text")
      { name := "report.docx", type := "application/pdf", file_bytes := () }).2.1 rfl
  exact ⟨rfl, rfl, h.1, h.2⟩
